import Mathlib

/-
Verification of the search-service core: the document mapper, the index
synchronizer, the event consumer and the query compiler, shallowly embedded
from the TypeScript sources (elasticsearchService, messageQueueService,
searchController, shared types).
-/

set_option autoImplicit false

namespace SearchService

/-- Domain work-item snapshot as carried by `work_item.created` and
`work_item.updated` event payloads; field names follow the snake_case keys the
source reads from `workItem` in `ElasticsearchService.reindexWorkItem`.
Optional fields model keys that may be absent (`undefined`) in the payload. -/
structure WorkItem where
  id : String
  tenant_id : String
  title : String
  description : Option String
  type : String
  status : String
  priority : String
  assigned_to : Option String
  parent_id : Option String
  tags : Option (List String)
  dependencies : Option (List String)
  lineage : Option (List String)
  progress : Option Int
  created_at : String
  updated_at : String
  due_date : Option String
  created_by : Option String
  estimated_hours : Option Int
  actual_hours : Option Int
  completion_date : Option String
  deriving DecidableEq, Repr

/-- Kind-specific metadata block built by `reindexWorkItem`. -/
structure WorkItemMetadata where
  estimatedHours : Option Int
  actualHours : Option Int
  completionDate : Option String
  deriving DecidableEq, Repr

/-- Indexed work-item document (`WorkItemDocument` in types.ts); fields that
the source may leave `undefined` are modelled as `Option`. -/
structure WorkItemDocument where
  id : String
  type : String
  tenantId : String
  title : String
  content : String
  workItemType : String
  status : String
  priority : String
  assignedTo : Option String
  parentId : Option String
  tags : List String
  dependencies : List String
  lineage : List String
  progress : Option Int
  createdAt : String
  updatedAt : String
  dueDate : Option String
  createdBy : Option String
  permissions : List String
  metadata : WorkItemMetadata
  deriving DecidableEq, Repr

/-- The fixed elevated-role tokens pushed unconditionally by
`ElasticsearchService.calculatePermissions`. -/
def roleTokens : List String :=
  ["role:CEO", "role:President", "role:VP", "role:Director", "role:Manager"]

/-- One `user:<id>` token guarded by JavaScript truthiness: the source pushes
the token under `if (workItem.assigned_to)`, so an absent field and the empty
string both yield nothing. -/
def userToken : Option String → List String
  | some s => if s = "" then [] else ["user:" ++ s]
  | none => []

/-- `ElasticsearchService.calculatePermissions`: start from the tenant token,
push the assignee and creator tokens when truthy, then the fixed role set. -/
def calculatePermissions (w : WorkItem) : List String :=
  ("tenant:" ++ w.tenant_id) :: (userToken w.assigned_to ++ (userToken w.created_by ++ roleTokens))

/-- The document literal constructed inside `ElasticsearchService.reindexWorkItem`;
`workItem.description || ''` and the `|| []` defaults are modelled with `getD`. -/
def workItemToDocument (w : WorkItem) : WorkItemDocument where
  id := w.id
  type := "work_item"
  tenantId := w.tenant_id
  title := w.title
  content := (w.description.getD "")
  workItemType := w.type
  status := w.status
  priority := w.priority
  assignedTo := w.assigned_to
  parentId := w.parent_id
  tags := w.tags.getD []
  dependencies := w.dependencies.getD []
  lineage := w.lineage.getD []
  progress := w.progress
  createdAt := w.created_at
  updatedAt := w.updated_at
  dueDate := w.due_date
  createdBy := w.created_by
  permissions := calculatePermissions w
  metadata := ⟨w.estimated_hours, w.actual_hours, w.completion_date⟩

/-- The work-items index, modelled as an id-keyed store (association list);
the engine owns per-document atomic create-or-replace keyed by `id`. -/
def Index : Type := List (String × WorkItemDocument)

instance : DecidableEq Index := fun a b => List.hasDecEq a b

def emptyIndex : Index := []

/-- Read back the document stored under an id. -/
def getDoc (idx : Index) (id : String) : Option WorkItemDocument :=
  (idx.find? (fun p => p.1 == id)).map Prod.snd

/-- `ElasticsearchService.indexDocument`: the engine index op is
create-or-replace by document id (`client.index` with an explicit `id`). -/
def indexDocument (idx : Index) (d : WorkItemDocument) : Index :=
  (d.id, d) :: idx.filter (fun p => p.1 != d.id)

/-- Engine delete errors surfaced to the gateway. -/
inductive EsError
  | notFound
  deriving DecidableEq, Repr

/-- Engine delete by id: the search-engine delete API reports a not-found
error when the id is absent (the client raises the 404 as an exception). -/
def esDelete (idx : Index) (id : String) : Except EsError Index :=
  if (getDoc idx id).isSome then Except.ok (idx.filter (fun p => p.1 != id))
  else Except.error EsError.notFound

/-- `ElasticsearchService.deleteDocument`: calls the engine delete and, in its
catch block, logs and rethrows — every engine error propagates to the caller. -/
def deleteDocument (idx : Index) (id : String) : Except EsError Index :=
  esDelete idx id

/-- `ElasticsearchService.updateDocument` as used for `work_item.status_changed`:
merge the status delta into the existing document and stamp `updatedAt` with
the current time `now`; a missing id is a document-missing engine error. -/
def updateDocument (idx : Index) (id : String) (newStatus : String) (now : String) :
    Except EsError Index :=
  match getDoc idx id with
  | some d => Except.ok (indexDocument idx { d with status := newStatus, updatedAt := now })
  | none => Except.error EsError.notFound

/-- `ElasticsearchService.reindexWorkItem`: map the snapshot to a document and
upsert it. -/
def reindexWorkItem (idx : Index) (w : WorkItem) : Index :=
  indexDocument idx (workItemToDocument w)

/-- Fields of the JSON event payload that `handleWorkItemEvent` reads
(`eventData.workItem`, `eventData.workItemId`, `eventData.newStatus`);
each may be absent. -/
structure WorkItemEventData where
  workItem : Option WorkItem
  workItemId : Option String
  newStatus : Option String
  deriving DecidableEq, Repr

/-- A message on the `search.work_items` queue: its routing key, and the
outcome of `JSON.parse` on its content (`Except.error` models a payload that
fails to parse). -/
structure QueueMessage where
  routingKey : String
  content : Except Unit WorkItemEventData
  deriving Repr

/-- Errors a handler body can raise before its own catch-all:
a parse failure, an access on an absent payload field, or an engine error
propagated by the gateway. -/
inductive HandlerError
  | parseError
  | missingField
  | esError (e : EsError)
  deriving DecidableEq, Repr

/-- The body of `MessageQueueService.handleWorkItemEvent` up to (not
including) its catch-all: parse, then dispatch on the routing key; a routing
key matching no case falls through the switch and does nothing. -/
def handleWorkItemEventCore (now : String) (idx : Index) (m : QueueMessage) :
    Except HandlerError Index :=
  match m.content with
  | Except.error _ => Except.error HandlerError.parseError
  | Except.ok ev =>
    if m.routingKey = "work_item.created" ∨ m.routingKey = "work_item.updated" then
      match ev.workItem with
      | some w => Except.ok (reindexWorkItem idx w)
      | none => Except.error HandlerError.missingField
    else if m.routingKey = "work_item.deleted" then
      match ev.workItemId with
      | some i =>
        match deleteDocument idx i with
        | Except.ok idx2 => Except.ok idx2
        | Except.error e => Except.error (HandlerError.esError e)
      | none => Except.error HandlerError.missingField
    else if m.routingKey = "work_item.status_changed" then
      match ev.workItemId, ev.newStatus with
      | some i, some s =>
        match updateDocument idx i s now with
        | Except.ok idx2 => Except.ok idx2
        | Except.error e => Except.error (HandlerError.esError e)
      | _, _ => Except.error HandlerError.missingField
    else Except.ok idx

/-- `MessageQueueService.handleWorkItemEvent` with its catch-all: any raised
error is caught and logged, the method returns normally. The Bool records
whether an error was raised (and swallowed); on error the index is unchanged. -/
def handleWorkItemEvent (now : String) (idx : Index) (m : QueueMessage) : Index × Bool :=
  match handleWorkItemEventCore now idx m with
  | Except.ok idx2 => (idx2, false)
  | Except.error _ => (idx, true)

/-- Broker acknowledgement outcome of one consume cycle. -/
inductive AckOutcome
  | ack
  | nack
  deriving DecidableEq, Repr

/-- The `search.work_items` consumer callback in
`MessageQueueService.setupConsumers`: await the handler, then acknowledge —
unconditionally, since the handler never throws. -/
def consumeWorkItem (now : String) (idx : Index) (m : QueueMessage) :
    Index × Bool × AckOutcome :=
  let r := handleWorkItemEvent now idx m
  (r.1, r.2, AckOutcome.ack)

/-- JavaScript `String.prototype.trim`: strip leading and trailing whitespace. -/
def jsTrim (s : String) : String :=
  String.mk (((s.data.dropWhile Char.isWhitespace).reverse.dropWhile Char.isWhitespace).reverse)

/-- Date-range facet of a search request (`filters.dateRange` in types.ts). -/
structure DateRange where
  field : String
  fromBound : Option String
  toBound : Option String
  deriving DecidableEq, Repr

/-- Facet filters of a search request (`SearchQuery.filters` in types.ts). -/
structure Filters where
  type : Option (List String)
  workItemType : Option (List String)
  status : Option (List String)
  priority : Option (List String)
  assignedTo : Option (List String)
  tags : Option (List String)
  dateRange : Option DateRange
  deriving DecidableEq, Repr

/-- One sort directive (`{field, order}`), `order` being `asc` or `desc`. -/
structure SortSpec where
  field : String
  order : String
  deriving DecidableEq, Repr

/-- Validated pagination (`{from, size}`); `fromOfs` models the `from` key. -/
structure Pagination where
  fromOfs : Int
  size : Int
  deriving DecidableEq, Repr

/-- A validated search request (`SearchQuery` in types.ts): the identity
fields are injected by the controller from the JWT, never client-supplied. -/
structure SearchQuery where
  query : String
  filters : Option Filters
  sort : Option (List SortSpec)
  pagination : Option Pagination
  tenantId : String
  userId : String
  userRole : String
  deriving DecidableEq, Repr

/-- Non-scoring filter clauses the compiler emits (`term`, `terms`, `range`). -/
inductive FilterClause
  | term (field value : String)
  | terms (field : String) (values : List String)
  | range (field : String) (gte lte : Option String)
  deriving DecidableEq, Repr

/-- Scoring clauses the compiler emits into `bool.must`. -/
inductive MustClause
  | multiMatch (query : String) (fields : List String) (matchType fuzziness : String)
  | matchAll
  deriving DecidableEq, Repr

/-- The compiled engine query body assembled by `buildSearchQuery`:
bool must/filter clauses, sort, pagination, plus the fixed highlight and
aggregation requests. `fromOfs = none` leaves `from` unset (engine default 0). -/
structure SearchBody where
  must : List MustClause
  filter : List FilterClause
  sortSpec : List (String × String)
  fromOfs : Option Int
  size : Option Int
  highlightFields : List String
  aggFields : List String
  deriving DecidableEq, Repr

/-- The `mustClauses` array of `buildSearchQuery`: a weighted fuzzy multi-field
match when `query.query && query.query.trim()` is truthy, else match-all. -/
def mustClauses (q : String) : List MustClause :=
  if q != "" && jsTrim q != "" then
    [MustClause.multiMatch q ["title^3", "content^2", "tags^1.5"] "best_fields" "AUTO"]
  else
    [MustClause.matchAll]

/-- One facet: a `terms` filter when the facet is present and non-empty. -/
def optTerms (field : String) : Option (List String) → List FilterClause
  | some vs => if vs.length > 0 then [FilterClause.terms field vs] else []
  | none => []

/-- JavaScript truthiness on an optional string bound: absent or empty means
the bound is not set. -/
def truthyStr : Option String → Option String
  | some s => if s = "" then none else some s
  | none => none

/-- The date-range clause: pushed whenever `filters.dateRange` is present,
each bound set only when truthy. -/
def dateRangeClauses : Option DateRange → List FilterClause
  | some dr => [FilterClause.range dr.field (truthyStr dr.fromBound) (truthyStr dr.toBound)]
  | none => []

/-- The facet-derived portion of the `filterClauses` array, in push order. -/
def facetFilters (f : Filters) : List FilterClause :=
  optTerms "type" f.type ++ optTerms "workItemType" f.workItemType ++
  optTerms "status" f.status ++ optTerms "priority" f.priority ++
  optTerms "assignedTo" f.assignedTo ++ optTerms "tags" f.tags ++
  dateRangeClauses f.dateRange

/-- The full `filterClauses` array: the tenant isolation term is pushed first,
before any request-supplied filters. -/
def filterClauses (q : SearchQuery) : List FilterClause :=
  FilterClause.term "tenantId" q.tenantId ::
    (match q.filters with
     | some f => facetFilters f
     | none => [])

/-- Default sort: relevance score descending, then `updatedAt` descending. -/
def defaultSort : List (String × String) :=
  [("_score", "desc"), ("updatedAt", "desc")]

/-- The sort array: caller-specified when present and non-empty, else default. -/
def sortSpecs (q : SearchQuery) : List (String × String) :=
  match q.sort with
  | some ss => if ss.length > 0 then ss.map (fun s => (s.field, s.order)) else defaultSort
  | none => defaultSort

/-- `ElasticsearchService.buildSearchQuery`: assemble the engine query body. -/
def buildSearchQuery (q : SearchQuery) : SearchBody where
  must := mustClauses q.query
  filter := filterClauses q
  sortSpec := sortSpecs q
  fromOfs := match q.pagination with
    | some p => some p.fromOfs
    | none => none
  size := match q.pagination with
    | some p => some p.size
    | none => some 20
  highlightFields := ["title", "content"]
  aggFields := ["type", "status", "priority"]

/-- `ElasticsearchService.getSearchIndices` helper: the indices collected for
the recognized type values (the `indices` array in the source). -/
def matchingIndices (pfx : String) (types : List String) : List String :=
  (if types.contains "work_item" then [pfx ++ "_work_items"] else []) ++
  (if types.contains "user" then [pfx ++ "_users"] else []) ++
  (if types.contains "template" then [pfx ++ "_templates"] else [])

/-- All three collections, prefixed. -/
def allIndicesFor (pfx : String) : List String :=
  ["work_items", "users", "templates"].map (fun i => pfx ++ "_" ++ i)

/-- `ElasticsearchService.getSearchIndices`: absent or empty type list means
all collections; otherwise the recognized matches, falling back to all
collections when nothing matched. -/
def getSearchIndices (pfx : String) (types : Option (List String)) : List String :=
  match types with
  | none => allIndicesFor pfx
  | some ts =>
    if ts.length = 0 then allIndicesFor pfx
    else if (matchingIndices pfx ts).length > 0 then matchingIndices pfx ts
    else allIndicesFor pfx

/-- The values a document carries for a named keyword or date field, used to
evaluate filter clauses (a `terms` filter on `tags` matches any tag). -/
def docFieldValues (d : WorkItemDocument) : String → List String
  | "id" => [d.id]
  | "type" => [d.type]
  | "tenantId" => [d.tenantId]
  | "workItemType" => [d.workItemType]
  | "status" => [d.status]
  | "priority" => [d.priority]
  | "assignedTo" => match d.assignedTo with
    | some a => [a]
    | none => []
  | "tags" => d.tags
  | "createdAt" => [d.createdAt]
  | "updatedAt" => [d.updatedAt]
  | "dueDate" => match d.dueDate with
    | some x => [x]
    | none => []
  | _ => []

/-- Engine semantics of the non-scoring clauses: a document passes a `term`
clause when the value is among the field values, a `terms` clause when any
field value is listed, and a `range` clause when some field value lies within
the bounds (ISO timestamps compare lexicographically). -/
def filterSatisfies (d : WorkItemDocument) : FilterClause → Bool
  | FilterClause.term f v => (docFieldValues d f).contains v
  | FilterClause.terms f vs => (docFieldValues d f).any (fun x => vs.contains x)
  | FilterClause.range f gte lte =>
    (docFieldValues d f).any (fun x =>
      (match gte with
       | some g => decide (g ≤ x)
       | none => true) &&
      (match lte with
       | some l => decide (x ≤ l)
       | none => true))

/-- Raw pagination object as it arrives in the HTTP body, before validation;
each key may be absent. -/
structure RawPagination where
  fromRaw : Option Int
  sizeRaw : Option Int
  deriving DecidableEq, Repr

/-- Validation of `pagination.from` per `SearchQuerySchema`:
`z.number().min(0).default(0)` — a negative value is rejected, never clamped. -/
def checkFrom (f : Int) : Except String Int :=
  if f < 0 then Except.error "pagination.from: too_small" else Except.ok f

/-- Validation of `pagination.size` per `SearchQuerySchema`:
`z.number().min(1).max(100).default(20)` — out-of-range values are rejected,
never clamped. -/
def checkSize (s : Int) : Except String Int :=
  if s < 1 then Except.error "pagination.size: too_small"
  else if s > 100 then Except.error "pagination.size: too_big"
  else Except.ok s

/-- The pagination part of `SearchQuerySchema.parse`: an absent object stays
absent; absent keys take their defaults; out-of-range values make the whole
request fail validation (HTTP 400). -/
def parsePagination : Option RawPagination → Except String (Option Pagination)
  | none => Except.ok none
  | some r =>
    match checkFrom (r.fromRaw.getD 0) with
    | Except.error e => Except.error e
    | Except.ok f =>
      match checkSize (r.sizeRaw.getD 20) with
      | Except.error e => Except.error e
      | Except.ok s => Except.ok (some ⟨f, s⟩)

/-- A concrete work-item snapshot: tenant `t1`, assignee `u42`, creator `u7`,
last updated 2024-01-02. -/
def w1ex : WorkItem where
  id := "wi1"
  tenant_id := "t1"
  title := "Launch plan v2"
  description := some "second revision"
  type := "task"
  status := "in_progress"
  priority := "high"
  assigned_to := some "u42"
  parent_id := none
  tags := some ["launch"]
  dependencies := none
  lineage := none
  progress := some 40
  created_at := "2024-01-01T00:00:00Z"
  updated_at := "2024-01-02T00:00:00Z"
  due_date := none
  created_by := some "u7"
  estimated_hours := some 8
  actual_hours := none
  completion_date := none

/-- An older snapshot of the same work item: same id, strictly earlier
`updated_at`, different title, status and progress. -/
def w2ex : WorkItem :=
  { w1ex with
    title := "Launch plan"
    status := "open"
    progress := some 10
    updated_at := "2024-01-01T12:00:00Z" }

/-- A search request with no free text, no filters, no sort, no pagination. -/
def q0 : SearchQuery where
  query := ""
  filters := none
  sort := none
  pagination := none
  tenantId := "t1"
  userId := "u1"
  userRole := "member"

/-- A search request whose free text is a single space: non-empty, but blank. -/
def qBlank : SearchQuery :=
  { q0 with query := " " }

/-- A message whose content fails `JSON.parse`. -/
def malformedMsg : QueueMessage where
  routingKey := "work_item.updated"
  content := Except.error ()

/-- A well-formed delete event for an id that is not in the index. -/
def deleteGhostMsg : QueueMessage where
  routingKey := "work_item.deleted"
  content := Except.ok ⟨none, some "ghost", none⟩

theorem filter_ne_idem (l : Index) (k : String) :
    (l.filter (fun p => p.1 != k)).filter (fun p => p.1 != k) =
      l.filter (fun p => p.1 != k) := by
  induction l with
  | nil => rfl
  | cons a t ih =>
    cases hb : (a.1 != k) with
    | false => simp [List.filter_cons, hb, ih]
    | true => simp [List.filter_cons, hb, ih]

theorem indexDocument_idem (idx : Index) (d : WorkItemDocument) :
    indexDocument (indexDocument idx d) d = indexDocument idx d := by
  show (d.id, d) :: (((d.id, d) :: idx.filter (fun p => p.1 != d.id)).filter
    (fun p => p.1 != d.id)) = (d.id, d) :: idx.filter (fun p => p.1 != d.id)
  rw [List.filter_cons]
  simp only [bne_self_eq_false, Bool.false_eq_true, if_neg, ite_false]
  rw [filter_ne_idem]

/-- C6: the synchronizer upsert is idempotent — applying the same
`work_item.created`/`work_item.updated` snapshot twice leaves the index equal
to applying it once, the derived document being a pure function of the
payload; the indexed document is exactly the mapped payload. -/
theorem c6_idempotent_upsert (idx : Index) (w : WorkItem) :
    reindexWorkItem (reindexWorkItem idx w) w = reindexWorkItem idx w ∧
    getDoc (reindexWorkItem idx w) w.id = some (workItemToDocument w) := by
  constructor
  · exact indexDocument_idem idx (workItemToDocument w)
  · have hpos : (fun p : String × WorkItemDocument => p.1 == w.id)
        ((workItemToDocument w).id, workItemToDocument w) = true := by
      simp [workItemToDocument]
    have h := List.find?_cons_of_pos (p := fun p : String × WorkItemDocument => p.1 == w.id)
      (a := ((workItemToDocument w).id, workItemToDocument w))
      (idx.filter (fun p => p.1 != (workItemToDocument w).id)) hpos
    simp only [reindexWorkItem, indexDocument, getDoc]
    rw [h]
    rfl

/-- C2: the code applies a stale write — after processing the newer event E1
(snapshot `w1ex`, updated 2024-01-02) and then the older event E2 (snapshot
`w2ex`, updated 2024-01-01, strictly earlier in the lexicographic order of the
ISO-8601 timestamps, which is chronological order), the indexed document is
the one derived from E2, not from E1: `reindexWorkItem` replaces
unconditionally, with no timestamp comparison. -/
theorem c2_stale_write_applied :
    w2ex.updated_at.data < w1ex.updated_at.data ∧
    getDoc (reindexWorkItem (reindexWorkItem emptyIndex w1ex) w2ex) "wi1" =
      some (workItemToDocument w2ex) ∧
    workItemToDocument w2ex ≠ workItemToDocument w1ex := by
  refine ⟨by decide, by rfl, by decide⟩

/-- C4: deleting a missing id is an error, not a no-op —
`deleteDocument` rethrows the engine not-found error, so deleting an id absent
from the index fails, and the second of two deletes of the same id fails. -/
theorem c4_delete_missing_errors :
    deleteDocument emptyIndex "ghost" = Except.error EsError.notFound ∧
    deleteDocument (indexDocument emptyIndex (workItemToDocument w1ex)) "wi1" =
      Except.ok emptyIndex ∧
    deleteDocument emptyIndex "wi1" = Except.error EsError.notFound := by
  refine ⟨by rfl, by rfl, by rfl⟩

/-- C3: the consumer acknowledges even when handling raised an error — for a
message whose payload fails to parse, and for a delete event whose engine call
fails, the handler catch-all swallows the raised error (the Bool component is
true) and the consume cycle still ends in an acknowledgement, never a negative
acknowledgement or requeue. -/
theorem c3_ack_despite_error :
    consumeWorkItem "2024-01-03T00:00:00Z" emptyIndex malformedMsg =
      (emptyIndex, true, AckOutcome.ack) ∧
    consumeWorkItem "2024-01-03T00:00:00Z" emptyIndex deleteGhostMsg =
      (emptyIndex, true, AckOutcome.ack) := by
  exact ⟨rfl, rfl⟩

/-- C10: a parseable work-item message whose routing key matches none of
`work_item.created`, `work_item.updated`, `work_item.deleted`,
`work_item.status_changed` falls through the dispatch switch: the index is
unchanged, no error is raised (the caught-error flag is false), and the
message is acknowledged. -/
theorem c10_unknown_key_noop (now : String) (idx : Index) (ev : WorkItemEventData)
    (rk : String)
    (h1 : rk ≠ "work_item.created") (h2 : rk ≠ "work_item.updated")
    (h3 : rk ≠ "work_item.deleted") (h4 : rk ≠ "work_item.status_changed") :
    consumeWorkItem now idx ⟨rk, Except.ok ev⟩ = (idx, false, AckOutcome.ack) := by
  simp [consumeWorkItem, handleWorkItemEvent, handleWorkItemEventCore, h1, h2, h3, h4]

/-- Witness for C10 at the concrete routing key `work_item.archived`. -/
theorem c10_unknown_key_noop_witness :
    consumeWorkItem "2024-01-03T00:00:00Z" emptyIndex
      ⟨"work_item.archived", Except.ok ⟨none, none, none⟩⟩ =
      (emptyIndex, false, AckOutcome.ack) :=
  c10_unknown_key_noop "2024-01-03T00:00:00Z" emptyIndex ⟨none, none, none⟩
    "work_item.archived" (by decide) (by decide) (by decide) (by decide)

theorem userToken_mem {o : Option String} {p : String} (h : p ∈ userToken o) :
    ∃ a, o = some a ∧ a ≠ "" ∧ p = "user:" ++ a := by
  cases o with
  | none => simp [userToken] at h
  | some s =>
    by_cases hs : s = ""
    · simp [userToken, hs] at h
    · simp [userToken, hs] at h
      exact ⟨s, rfl, hs, h⟩

/-- C7: permission derivation — for the concrete work item with tenant `t1`,
assignee `u42` and creator `u7` the derived list is exactly the tenant token,
the two user tokens and the five elevated-role tokens; in general the tenant
token and every role token are always emitted, and every emitted token is
either the tenant token, a `user:` token for a present (truthy) assignee or
creator, or one of the fixed role tokens. -/
theorem c7_permissions :
    calculatePermissions w1ex =
      ["tenant:t1", "user:u42", "user:u7", "role:CEO", "role:President",
       "role:VP", "role:Director", "role:Manager"] ∧
    (∀ w : WorkItem, ("tenant:" ++ w.tenant_id) ∈ calculatePermissions w ∧
      ∀ r ∈ roleTokens, r ∈ calculatePermissions w) ∧
    (∀ (w : WorkItem) (p : String), p ∈ calculatePermissions w →
      p = "tenant:" ++ w.tenant_id ∨
      (∃ a, w.assigned_to = some a ∧ a ≠ "" ∧ p = "user:" ++ a) ∨
      (∃ c, w.created_by = some c ∧ c ≠ "" ∧ p = "user:" ++ c) ∨
      p ∈ roleTokens) := by
  refine ⟨by decide, ?_, ?_⟩
  · intro w
    constructor
    · exact List.mem_cons_self _ _
    · intro r hr
      simp [calculatePermissions]
      tauto
  · intro w p hp
    simp only [calculatePermissions, List.mem_cons, List.mem_append] at hp
    rcases hp with h | h | h | h
    · exact Or.inl h
    · exact Or.inr (Or.inl (userToken_mem h))
    · exact Or.inr (Or.inr (Or.inl (userToken_mem h)))
    · exact Or.inr (Or.inr (Or.inr h))

/-- Witness for C7: the always-emitted tokens at the concrete work item, and
the characterization applied to the emitted token `user:u42`. -/
theorem c7_permissions_witness :
    ("tenant:" ++ w1ex.tenant_id) ∈ calculatePermissions w1ex ∧
    ("role:CEO" ∈ calculatePermissions w1ex) ∧
    ("user:u42" = "tenant:" ++ w1ex.tenant_id ∨
      (∃ a, w1ex.assigned_to = some a ∧ a ≠ "" ∧ "user:u42" = "user:" ++ a) ∨
      (∃ c, w1ex.created_by = some c ∧ c ≠ "" ∧ "user:u42" = "user:" ++ c) ∨
      "user:u42" ∈ roleTokens) :=
  ⟨(c7_permissions.2.1 w1ex).1,
   (c7_permissions.2.1 w1ex).2 "role:CEO" (by decide),
   c7_permissions.2.2 w1ex "user:u42" (by decide)⟩

/-- C1: tenant isolation — every compiled search body carries the exact-match
term on the request tenant as a hard (non-scoring) filter clause, whatever the
free text, filters, sort or pagination; and any document passing all filter
clauses of the compiled body has exactly the request tenant. -/
theorem c1_tenant_filter (q : SearchQuery) (d : WorkItemDocument) :
    FilterClause.term "tenantId" q.tenantId ∈ (buildSearchQuery q).filter ∧
    ((buildSearchQuery q).filter.all (filterSatisfies d) = true →
      d.tenantId = q.tenantId) := by
  constructor
  · exact List.mem_cons_self _ _
  · intro h
    have hc : filterSatisfies d (FilterClause.term "tenantId" q.tenantId) = true :=
      List.all_eq_true.mp h _ (List.mem_cons_self _ _)
    simp only [filterSatisfies, docFieldValues, List.contains_cons,
      List.contains_nil, Bool.or_false, beq_iff_eq] at hc
    exact hc.symm

/-- Witness for C1 at the empty request `q0` and the mapped document of
`w1ex`, both in tenant `t1`. -/
theorem c1_tenant_filter_witness :
    FilterClause.term "tenantId" q0.tenantId ∈ (buildSearchQuery q0).filter ∧
    (workItemToDocument w1ex).tenantId = q0.tenantId :=
  ⟨(c1_tenant_filter q0 (workItemToDocument w1ex)).1,
   (c1_tenant_filter q0 (workItemToDocument w1ex)).2 (by decide)⟩

/-- C9 counterexample: the request `qBlank` carries the non-empty free-text
query consisting of a single space, yet the compiled body holds a match-all
clause and no multi-field match: the source guards on
`query.query && query.query.trim()`, so a whitespace-only query compiles like
an empty one. -/
theorem c9_blank_query_match_all :
    qBlank.query ≠ "" ∧ (buildSearchQuery qBlank).must = [MustClause.matchAll] := by
  exact ⟨by decide, by decide⟩

/-- C9 amended: when the free text is non-blank (non-empty after trimming),
the must clause is the weighted fuzzy multi-field match over `title^3`,
`content^2`, `tags^1.5`; when the free text trims to empty, it is match-all. -/
theorem c9_freetext_clause (q : SearchQuery) :
    (jsTrim q.query ≠ "" → (buildSearchQuery q).must =
      [MustClause.multiMatch q.query ["title^3", "content^2", "tags^1.5"]
        "best_fields" "AUTO"]) ∧
    (jsTrim q.query = "" → (buildSearchQuery q).must = [MustClause.matchAll]) := by
  constructor
  · intro h
    have hq : q.query ≠ "" := by
      intro he
      exact h (by rw [he]; rfl)
    show mustClauses q.query = _
    simp [mustClauses, hq, h]
  · intro h
    show mustClauses q.query = _
    simp [mustClauses, h]

/-- Witness for C9 at the query `launch` (non-blank) and the empty query. -/
theorem c9_freetext_clause_witness :
    (buildSearchQuery { q0 with query := "launch" }).must =
      [MustClause.multiMatch "launch" ["title^3", "content^2", "tags^1.5"]
        "best_fields" "AUTO"] ∧
    (buildSearchQuery q0).must = [MustClause.matchAll] :=
  ⟨(c9_freetext_clause { q0 with query := "launch" }).1 (by decide),
   (c9_freetext_clause q0).2 (by decide)⟩

/-- C8 counterexample: a non-empty type filter whose only entry matches no
collection — `["bogus"]` — makes `getSearchIndices` fall back to searching all
three collections, while the set of collections matching the listed types is
empty, so the search is not restricted to the matching collections. -/
theorem c8_unrecognized_type_falls_back :
    (["bogus"] : List String) ≠ [] ∧
    matchingIndices "htma" ["bogus"] = [] ∧
    getSearchIndices "htma" (some ["bogus"]) = allIndicesFor "htma" ∧
    getSearchIndices "htma" (some ["bogus"]) ≠ matchingIndices "htma" ["bogus"] := by
  refine ⟨by decide, by decide, by decide, by decide⟩

/-- C8 amended: an absent or empty type filter searches all collections; a
type filter matching at least one collection restricts the search to exactly
the matching collections; a non-empty type filter matching no collection falls
back to all collections. -/
theorem c8_collection_selection :
    (∀ pfx : String, getSearchIndices pfx none = allIndicesFor pfx) ∧
    (∀ pfx : String, getSearchIndices pfx (some []) = allIndicesFor pfx) ∧
    (∀ (pfx : String) (ts : List String), matchingIndices pfx ts ≠ [] →
      getSearchIndices pfx (some ts) = matchingIndices pfx ts) ∧
    (∀ (pfx : String) (ts : List String), matchingIndices pfx ts = [] →
      getSearchIndices pfx (some ts) = allIndicesFor pfx) := by
  refine ⟨fun pfx => rfl, fun pfx => rfl, ?_, ?_⟩
  · intro pfx ts h
    cases ts with
    | nil => exact absurd rfl h
    | cons a t =>
      have hl : (matchingIndices pfx (a :: t)).length > 0 := by
        cases hm : matchingIndices pfx (a :: t) with
        | nil => exact absurd hm h
        | cons x xs => simp
      simp [getSearchIndices, hl]
  · intro pfx ts h
    cases ts with
    | nil => rfl
    | cons a t => simp [getSearchIndices, h]

/-- Witness for C8: the filter `["work_item"]` restricts the search to the
work-items collection, and `["bogus"]` falls back to every collection. -/
theorem c8_collection_selection_witness :
    getSearchIndices "htma" (some ["work_item"]) = matchingIndices "htma" ["work_item"] ∧
    getSearchIndices "htma" (some ["zzz"]) = allIndicesFor "htma" :=
  ⟨c8_collection_selection.2.2.1 "htma" ["work_item"] (by decide),
   c8_collection_selection.2.2.2 "htma" ["zzz"] (by decide)⟩

/-- C5 counterexample: a requested size of 0 and a requested size of 500 are
both rejected by the schema as validation errors — the parse fails, no
clamped value in [1,100] is produced. -/
theorem c5_size_rejected_not_clamped :
    parsePagination (some ⟨some 0, some 0⟩) =
      Except.error "pagination.size: too_small" ∧
    parsePagination (some ⟨some 0, some 500⟩) =
      Except.error "pagination.size: too_big" := by
  exact ⟨rfl, rfl⟩

/-- C5 amended: out-of-range pagination is rejected, not clamped — any
successfully validated pagination satisfies `from ≥ 0` and `size ∈ [1,100]`
and is passed through unchanged; a negative `from` is a validation error; an
absent pagination object stays absent, the compiled body then using size 20
and leaving `from` unset (engine default 0); an empty pagination object takes
the defaults `from = 0`, `size = 20`. -/
theorem c5_pagination_validation :
    (∀ (f s : Int) (p : Pagination),
      parsePagination (some ⟨some f, some s⟩) = Except.ok (some p) →
      0 ≤ p.fromOfs ∧ 1 ≤ p.size ∧ p.size ≤ 100 ∧ p = ⟨f, s⟩) ∧
    parsePagination (some ⟨some (-1), some 20⟩) =
      Except.error "pagination.from: too_small" ∧
    parsePagination none = Except.ok none ∧
    (∀ q : SearchQuery, q.pagination = none →
      (buildSearchQuery q).size = some 20 ∧ (buildSearchQuery q).fromOfs = none) ∧
    parsePagination (some ⟨none, none⟩) = Except.ok (some ⟨0, 20⟩) := by
  refine ⟨?_, rfl, rfl, ?_, rfl⟩
  · intro f s p h
    simp only [parsePagination, checkFrom, checkSize, Option.getD] at h
    by_cases hf : f < 0
    · simp [hf] at h
    · by_cases hs1 : s < 1
      · simp [hf, hs1] at h
      · by_cases hs2 : s > 100
        · simp [hf, hs1, hs2] at h
        · simp only [hf, hs1, hs2, if_neg, ite_false, Except.ok.injEq,
            Option.some.injEq] at h
          cases h
          refine ⟨?_, ?_, ?_, rfl⟩
          · show (0 : Int) ≤ f
            omega
          · show (1 : Int) ≤ s
            omega
          · show s ≤ (100 : Int)
            omega
  · intro q hq
    constructor
    · show (match q.pagination with
        | some p => some p.size
        | none => some 20) = some 20
      rw [hq]
    · show (match q.pagination with
        | some p => some p.fromOfs
        | none => none) = none
      rw [hq]

/-- Witness for C5: the validated pagination from = 0, size = 50 is in bounds
and passed through, and the empty request q0 compiles to size 20 with from
unset. -/
theorem c5_pagination_validation_witness :
    (0 ≤ (Pagination.mk 0 50).fromOfs ∧ 1 ≤ (Pagination.mk 0 50).size ∧
      (Pagination.mk 0 50).size ≤ 100 ∧ Pagination.mk 0 50 = ⟨0, 50⟩) ∧
    ((buildSearchQuery q0).size = some 20 ∧ (buildSearchQuery q0).fromOfs = none) :=
  ⟨c5_pagination_validation.1 0 50 ⟨0, 50⟩ (by rfl),
   c5_pagination_validation.2.2.2.1 q0 (by rfl)⟩

end SearchService
